import Mathlib

/-!
Verification of the shuup xtheme product plugins
(`shuup/xtheme/plugins/products.py`): a shallow embedding of the three
plugin classes (`ProductHighlightPlugin`, `ProductCrossSellsPlugin`,
`ProductsFromCategoryPlugin`) and the `ProductsFromCategoryForm`, together
with theorems settling the specification claims about them.

Python dictionaries are embedded as association lists of string keys and
dynamically typed values; external helper functions (the product query
helpers, the cross-sell relation mapper, the category ORM and the generic
form machinery) are embedded as parameters or modelled from the spec where
their code is not part of the provided sources.
-/

namespace Shuup

/-- Modelled from the spec: the external enumeration
`ProductCrossSellType` from `shuup.core.models` (not under `src/`), a
closed enumeration of cross-sell relation types with a default `RELATED`
member. -/
inductive ProductCrossSellType where
  | RELATED
  | RECOMMENDED
  | COMPUTED
  | BOUGHT_WITH
deriving DecidableEq, Repr

/-- Modelled from the spec: the external `Category` model from
`shuup.core.models` (not under `src/`): a category row with a primary-key
identifier, a deletion flag and an owning shop identifier. -/
structure Category where
  id : Int
  deleted : Bool
  shop : Int
deriving DecidableEq, Repr

/-- A dynamically typed Python value as stored in plugin configuration
mappings and rendering contexts: `None`, booleans, integers, strings,
relation-type enum members, lists (product lists), and model objects
carrying a primary key (`vobj pk` stands for an ORM object whose `pk`
attribute is `pk`). -/
inductive Value where
  | vnone
  | vbool (b : Bool)
  | vint (n : Int)
  | vstr (s : String)
  | venum (t : ProductCrossSellType)
  | vlist (l : List Value)
  | vobj (pk : Int)

/-- Python truthiness of an embedded value (`if value:`). -/
def Value.truthy : Value → Bool
  | .vnone => false
  | .vbool b => b
  | .vint n => n != 0
  | .vstr s => s != ""
  | .venum _ => true
  | .vlist l => !l.isEmpty
  | .vobj _ => true

/-- Python `hasattr(value, "pk")`: only model objects carry a `pk`
attribute in this embedding. -/
def Value.hasPk : Value → Bool
  | .vobj _ => true
  | _ => false

/-- Python `value == s` against a string literal: only equal strings
compare equal (no cross-type equality holds for the values involved). -/
def valueEqStr : Value → String → Bool
  | .vstr t, s => t == s
  | _, _ => false

/-- The ORM `id=` lookup comparison: the stored identifier value matches a
row's integer primary key exactly when it is that integer. -/
def valueEqInt : Value → Int → Bool
  | .vint m, n => m == n
  | _, _ => false

/-- A Python dictionary embedded as an association list (first binding of
a key wins). -/
abbrev Dict := List (String × Value)

/-- Dictionary lookup, `d.get(k)` / `d[k]` (as an `Option`). -/
def dget? : Dict → String → Option Value
  | [], _ => none
  | (k, v) :: rest, key => if k == key then some v else dget? rest key

/-- Dictionary lookup with a default, `d.get(k, dflt)`. -/
def dgetD (d : Dict) (k : String) (dflt : Value) : Value :=
  (dget? d k).getD dflt

/-- Dictionary update `d[k] = v`: replaces the binding of `k` in place,
appending it when absent. -/
def dset : Dict → String → Value → Dict
  | [], key, val => [(key, val)]
  | (k, v) :: rest, key, val =>
      if k == key then (key, val) :: rest else (k, v) :: dset rest key val

/-- The keys of a dictionary, in order. -/
def dkeys (d : Dict) : List String := d.map Prod.fst

/-- The `HighlightType` enum of `products.py`: `NEWEST`, `BEST_SELLING`,
`RANDOM`. -/
inductive HighlightType where
  | NEWEST
  | BEST_SELLING
  | RANDOM
deriving DecidableEq, Repr

/-- The stored string value of a `HighlightType` member. -/
def HighlightType.value : HighlightType → String
  | .NEWEST => "newest"
  | .BEST_SELLING => "best_selling"
  | .RANDOM => "random"

/-- Modelled from the spec: the external relation-type mapping function
`map_relation_type` from `shuup.front.template_helpers.product` (not under
`src/`). It maps a known relation-type string to the corresponding enum
member and passes an enum member through unchanged; on any other value,
unknown strings included, it raises a lookup failure, embedded here as
`none`. -/
def map_relation_type : Value → Option ProductCrossSellType
  | .venum t => some t
  | .vstr "related" => some ProductCrossSellType.RELATED
  | .vstr "recommended" => some ProductCrossSellType.RECOMMENDED
  | .vstr "computed" => some ProductCrossSellType.COMPUTED
  | .vstr "bought_with" => some ProductCrossSellType.BOUGHT_WITH
  | _ => none

/-- Modelled from the spec: `TemplatedPlugin.get_translated_value` (the
base plugin class is not under `src/`): reads the configured translatable
value for a key, defaulting to the field's initial value. -/
def get_translated_value (config : Dict) (key : String) (dflt : Value) : Value :=
  dgetD config key dflt

/-- One invocation of an external product-query helper, recording the
helper chosen and the arguments it received. -/
inductive HelperCall where
  | newestCall (context : Dict) (count orderable_only sale_items_only : Value)
  | bestSellingCall (context : Dict) (count orderable_only sale_items_only : Value)
  | randomCall (context : Dict) (count orderable_only sale_items_only : Value)
  | categoriesCall (context : Dict) (categories : List Category)
      (n_products orderable_only sale_items_only : Value)

/-- The `count` argument a helper invocation received (`n_products` for the
category helper). -/
def HelperCall.countArg : HelperCall → Value
  | .newestCall _ c _ _ => c
  | .bestSellingCall _ c _ _ => c
  | .randomCall _ c _ _ => c
  | .categoriesCall _ _ c _ _ => c

/-- Modelled from the spec: the external world the plugins call into — the
product-query helper functions from `shuup.front.template_helpers.general`
(arbitrary functions returning a product-list value), the `Category` table
and the active shop. None of this code is under `src/`. -/
structure Env where
  get_newest_products : Dict → Value → Value → Value → Value
  get_best_selling_products : Dict → Value → Value → Value → Value
  get_random_products : Dict → Value → Value → Value → Value
  get_products_for_categories : Dict → List Category → Value → Value → Value → Value
  categories : List Category
  shop : Int

/-- The dispatch of `ProductHighlightPlugin.get_context_data` (lines
58-75 of `products.py`): reads `type`, `count`, `orderable_only` and
`sale_items_only` from the configuration and selects the query helper by
the type code; an unmatched code yields an empty product list and no
helper call. Returns the `products` value with the helper-invocation
trace. -/
def productHighlight_branch (env : Env) (config context : Dict) :
    Value × List HelperCall :=
  let highlight_type := dgetD config "type" (Value.vstr HighlightType.NEWEST.value)
  let count := dgetD config "count" (Value.vint 4)
  let orderable_only := dgetD config "orderable_only" (Value.vbool true)
  let sale_items_only := dgetD config "sale_items_only" (Value.vbool false)
  if valueEqStr highlight_type HighlightType.NEWEST.value then
    (env.get_newest_products context count orderable_only sale_items_only,
     [HelperCall.newestCall context count orderable_only sale_items_only])
  else if valueEqStr highlight_type HighlightType.BEST_SELLING.value then
    (env.get_best_selling_products context count orderable_only sale_items_only,
     [HelperCall.bestSellingCall context count orderable_only sale_items_only])
  else if valueEqStr highlight_type HighlightType.RANDOM.value then
    (env.get_random_products context count orderable_only sale_items_only,
     [HelperCall.randomCall context count orderable_only sale_items_only])
  else
    (Value.vlist [], [])

/-- `ProductHighlightPlugin.get_context_data`: dispatches via
`productHighlight_branch` and returns the `{request, title, products}`
context together with the trace of helper invocations. A missing
`request` context variable is the `KeyError` of `context["request"]`. -/
def productHighlight_get_context_data (env : Env) (config context : Dict) :
    Except String (Dict × List HelperCall) :=
  match dget? context "request" with
  | none => Except.error "KeyError: request"
  | some request =>
      Except.ok ([("request", request),
        ("title", get_translated_value config "title" (Value.vstr "")),
        ("products", (productHighlight_branch env config context).fst)],
        (productHighlight_branch env config context).snd)

/-- `ProductCrossSellsPlugin.__init__`: when the configuration holds a
truthy `type` value, that entry is replaced in place by the mapped
relation-type enum, falling back to `RELATED` when the mapping raises;
a falsy or absent `type` is left untouched. The returned dictionary is
the configuration the base constructor then stores. -/
def productCrossSells_init (config : Dict) : Dict :=
  let relation_type := dgetD config "type" Value.vnone
  if relation_type.truthy then
    dset config "type"
      (Value.venum ((map_relation_type relation_type).getD ProductCrossSellType.RELATED))
  else config

/-- `ProductCrossSellsPlugin.get_context_data`: reads `count`,
`orderable_only` and `type` from the configuration and `product` from the
rendering context (defaulting to `None`), resolves the relation type via
`map_relation_type` with a `RELATED` fallback on lookup failure, and
returns the parameter mapping
`{request, title, product, type, count, orderable_only}` without querying
any product list. -/
def productCrossSells_get_context_data (config context : Dict) :
    Except String Dict :=
  let count := dgetD config "count" (Value.vint 4)
  let product := dgetD context "product" Value.vnone
  let orderable_only := dgetD config "orderable_only" (Value.vbool true)
  let relation_type := dgetD config "type" Value.vnone
  let resolved := (map_relation_type relation_type).getD ProductCrossSellType.RELATED
  match dget? context "request" with
  | none => Except.error "KeyError: request"
  | some request =>
      Except.ok [("request", request),
        ("title", get_translated_value config "title" (Value.vstr "")),
        ("product", product),
        ("type", Value.venum resolved),
        ("count", count),
        ("orderable_only", orderable_only)]

/-- `ProductsFromCategoryForm.clean`: the cleaned `category` value is
replaced in place by the selected object's primary key when the value has
one (`hasattr(carousel, "pk")`), and by `None` otherwise. -/
def productsFromCategoryForm_clean (cleaned_data : Dict) : Dict :=
  let carousel := dgetD cleaned_data "category" Value.vnone
  dset cleaned_data "category"
    (match carousel with
     | Value.vobj pk => Value.vint pk
     | _ => Value.vnone)

/-- The category lookup performed by
`ProductsFromCategoryPlugin.get_context_data` (line 177 of `products.py`):
`Category.objects.filter(id=category_id).first() if category_id else None`
— a match on the identifier alone, with no deletion or shop filtering. -/
def categoryLookup (env : Env) (category_id : Value) : Option Category :=
  if category_id.truthy then
    (env.categories.filter fun c => valueEqInt category_id c.id).head?
  else none

/-- The category lookup the spec describes for render time, written from
the spec's words for comparison with `categoryLookup`: the stored
identifier matched against categories that are not deleted and belong to
the active shop. -/
def specCategoryLookup (env : Env) (category_id : Value) : Option Category :=
  if category_id.truthy then
    (env.categories.filter fun c =>
      valueEqInt category_id c.id && !c.deleted && c.shop == env.shop).head?
  else none

/-- The product computation of
`ProductsFromCategoryPlugin.get_context_data` (lines 171-180 of
`products.py`): reads `category`, `count`, `orderable_only` and
`sale_items_only` from the configuration, looks the category up by its
identifier via `categoryLookup`, and if one is found delegates to
`get_products_for_categories` with the count/orderable/sale filters,
otherwise keeps the initial empty product list. -/
def productsFromCategory_branch (env : Env) (config context : Dict) :
    Value × List HelperCall :=
  let category_id := dgetD config "category" Value.vnone
  let count := dgetD config "count" Value.vnone
  let orderable_only := dgetD config "orderable_only" (Value.vbool true)
  let sale_items_only := dgetD config "sale_items_only" (Value.vbool false)
  match categoryLookup env category_id with
  | some category =>
      (env.get_products_for_categories context [category] count
         orderable_only sale_items_only,
       [HelperCall.categoriesCall context [category] count
         orderable_only sale_items_only])
  | none => (Value.vlist [], [])

/-- `ProductsFromCategoryPlugin.get_context_data`: computes the product
list via `productsFromCategory_branch` and returns the
`{request, title, products}` context with the helper-invocation trace. -/
def productsFromCategory_get_context_data (env : Env) (config context : Dict) :
    Except String (Dict × List HelperCall) :=
  match dget? context "request" with
  | none => Except.error "KeyError: request"
  | some request =>
      Except.ok ([("request", request),
        ("title", get_translated_value config "title" (Value.vstr "")),
        ("products", (productsFromCategory_branch env config context).fst)],
        (productsFromCategory_branch env config context).snd)

/-- A form field declaration as it appears in a plugin's `fields` list:
the Django field class with the constructor arguments the source passes
(labels and help texts are omitted as purely presentational). -/
inductive FieldSpec where
  | translatableF (required : Bool) (initial : String)
  | choiceF (choices : List String) (initial : String)
  | integerF (min_value : Option Int) (initial : Int)
  | booleanF (initial required : Bool)
  | crossSellTypeF

/-- An entry of a plugin's `fields` list: either a `(name, field)` tuple
or a bare field name (the `"category"` entry of the category plugin). -/
inductive FieldEntry where
  | named (name : String) (spec : FieldSpec)
  | bare (name : String)

/-- `ProductHighlightPlugin.fields`. -/
def productHighlight_fields : List FieldEntry :=
  [FieldEntry.named "title" (FieldSpec.translatableF false ""),
   FieldEntry.named "type" (FieldSpec.choiceF
     [HighlightType.NEWEST.value, HighlightType.BEST_SELLING.value,
      HighlightType.RANDOM.value]
     HighlightType.NEWEST.value),
   FieldEntry.named "count" (FieldSpec.integerF (some 1) 4),
   FieldEntry.named "sale_items_only" (FieldSpec.booleanF false false),
   FieldEntry.named "orderable_only" (FieldSpec.booleanF true false)]

/-- `ProductCrossSellsPlugin.fields`. -/
def productCrossSells_fields : List FieldEntry :=
  [FieldEntry.named "title" (FieldSpec.translatableF false ""),
   FieldEntry.named "type" FieldSpec.crossSellTypeF,
   FieldEntry.named "count" (FieldSpec.integerF (some 1) 4),
   FieldEntry.named "orderable_only" (FieldSpec.booleanF true false)]

/-- `ProductsFromCategoryPlugin.fields`. -/
def productsFromCategory_fields : List FieldEntry :=
  [FieldEntry.named "title" (FieldSpec.translatableF false ""),
   FieldEntry.named "count" (FieldSpec.integerF (some 1) 4),
   FieldEntry.bare "category",
   FieldEntry.named "sale_items_only" (FieldSpec.booleanF false false),
   FieldEntry.named "orderable_only" (FieldSpec.booleanF true false)]

/-- Modelled from the spec: Django form field validation (the form base
classes live outside `src/`). An `IntegerField` with a `min_value` accepts
exactly the integers at least that bound; a non-required field also
accepts a missing value; a `ChoiceField` accepts its declared choices; a
`BooleanField` stores a boolean (a required one must be true); the
cross-sell type field accepts the values its relation-type mapping knows. -/
def fieldAccepts : FieldSpec → Option Value → Bool
  | .integerF (some m) _, some (.vint n) => decide (m ≤ n)
  | .integerF none _, some (.vint _) => true
  | .integerF _ _, _ => false
  | .translatableF required _, none => !required
  | .translatableF _ _, some (.vstr _) => true
  | .translatableF _ _, _ => false
  | .choiceF cs _, some (.vstr s) => cs.contains s
  | .choiceF _ _, _ => false
  | .booleanF _ required, none => !required
  | .booleanF _ required, some (.vbool b) => b || !required
  | .booleanF _ _, _ => false
  | .crossSellTypeF, some v => (map_relation_type v).isSome
  | .crossSellTypeF, none => false

/-- Modelled from the spec: a configuration is accepted by a plugin's
configuration form when every declared named field accepts the stored
value under its name (bare entries are filled in by the form subclass and
impose no constraint here). -/
def formAccepts (fields : List FieldEntry) (data : Dict) : Bool :=
  fields.all fun entry =>
    match entry with
    | FieldEntry.named name spec => fieldAccepts spec (dget? data name)
    | FieldEntry.bare _ => true

/-- A concrete environment exercising the category plugin: a single
category that exists but is deleted (and belongs to the active shop), and
a category helper returning a one-product list. -/
def envDeletedCategory : Env where
  get_newest_products := fun _ _ _ _ => Value.vlist []
  get_best_selling_products := fun _ _ _ _ => Value.vlist []
  get_random_products := fun _ _ _ _ => Value.vlist []
  get_products_for_categories := fun _ _ _ _ _ => Value.vlist [Value.vint 99]
  categories := [{ id := 1, deleted := true, shop := 1 }]
  shop := 1

/-- A configuration storing category identifier 1 and count 4. -/
def configCategoryOne : Dict :=
  [("category", Value.vint 1), ("count", Value.vint 4)]

/-- A rendering context holding only the `request` variable. -/
def ctxRequestOnly : Dict := [("request", Value.vstr "request")]

/-! ### Dictionary lemmas -/

theorem dget?_dset_self (d : Dict) (k : String) (v : Value) :
    dget? (dset d k v) k = some v := by
  induction d with
  | nil => simp [dset, dget?]
  | cons hd tl ih =>
      obtain ⟨k1, v1⟩ := hd
      by_cases h : k1 = k
      · simp [dset, dget?, h]
      · simp [dset, dget?, h, ih]

theorem dget?_dset_ne (d : Dict) (k k2 : String) (v : Value) (h : k2 ≠ k) :
    dget? (dset d k v) k2 = dget? d k2 := by
  induction d with
  | nil => simp [dset, dget?, Ne.symm h]
  | cons hd tl ih =>
      obtain ⟨k1, v1⟩ := hd
      by_cases h1 : k1 = k
      · subst h1
        simp [dset, dget?, Ne.symm h]
      · simp [dset, dget?, h1, ih]

/-! ### Branch lemmas -/

theorem productHighlight_branch_unknown (env : Env) (config context : Dict)
    (h1 : valueEqStr (dgetD config "type" (Value.vstr "newest")) "newest" = false)
    (h2 : valueEqStr (dgetD config "type" (Value.vstr "newest")) "best_selling" = false)
    (h3 : valueEqStr (dgetD config "type" (Value.vstr "newest")) "random" = false) :
    productHighlight_branch env config context = (Value.vlist [], []) := by
  simp only [productHighlight_branch, HighlightType.value]
  simp only [h1, h2, h3]
  simp

theorem productHighlight_branch_count (env : Env) (config context : Dict) :
    ∀ call ∈ (productHighlight_branch env config context).snd,
      call.countArg = dgetD config "count" (Value.vint 4) := by
  intro call hmem
  simp only [productHighlight_branch] at hmem
  split at hmem <;>
    first
    | (simp only [List.mem_singleton] at hmem; subst hmem; rfl)
    | (split at hmem <;>
        first
        | (simp only [List.mem_singleton] at hmem; subst hmem; rfl)
        | (split at hmem <;>
            first
            | (simp only [List.mem_singleton] at hmem; subst hmem; rfl)
            | simp at hmem))

theorem productsFromCategory_branch_count (env : Env) (config context : Dict) :
    ∀ call ∈ (productsFromCategory_branch env config context).snd,
      call.countArg = dgetD config "count" Value.vnone := by
  intro call hmem
  simp only [productsFromCategory_branch] at hmem
  split at hmem
  · simp only [List.mem_singleton] at hmem
    subst hmem
    rfl
  · simp at hmem

theorem categoryLookup_eq_none (env : Env) (cid : Value)
    (h : env.categories.filter (fun c => valueEqInt cid c.id) = []) :
    categoryLookup env cid = none := by
  unfold categoryLookup
  rw [h]
  simp

theorem productsFromCategory_branch_nomatch (env : Env) (config context : Dict)
    (h : env.categories.filter
      (fun c => valueEqInt (dgetD config "category" Value.vnone) c.id) = []) :
    productsFromCategory_branch env config context = (Value.vlist [], []) := by
  simp only [productsFromCategory_branch]
  rw [categoryLookup_eq_none env _ h]

theorem productsFromCategory_branch_found (env : Env) (config context : Dict)
    (c : Category)
    (hc : categoryLookup env (dgetD config "category" Value.vnone) = some c) :
    productsFromCategory_branch env config context =
      (env.get_products_for_categories context [c]
         (dgetD config "count" Value.vnone)
         (dgetD config "orderable_only" (Value.vbool true))
         (dgetD config "sale_items_only" (Value.vbool false)),
       [HelperCall.categoriesCall context [c]
         (dgetD config "count" Value.vnone)
         (dgetD config "orderable_only" (Value.vbool true))
         (dgetD config "sale_items_only" (Value.vbool false))]) := by
  simp only [productsFromCategory_branch]
  rw [hc]

theorem productsFromCategory_branch_notfound (env : Env) (config context : Dict)
    (hc : categoryLookup env (dgetD config "category" Value.vnone) = none) :
    productsFromCategory_branch env config context = (Value.vlist [], []) := by
  simp only [productsFromCategory_branch]
  rw [hc]

/-! ### Claim theorems -/

/-- C3: for every configuration whose `type` value is not one of the three
highlight codes (`newest`, `best_selling`, `random`),
`ProductHighlightPlugin.get_context_data` returns a context whose
`products` entry is the empty list, no helper is invoked, and no error is
raised. -/
theorem highlight_unknown_type_empty_products
    (env : Env) (config context : Dict) (r : Value)
    (hreq : dget? context "request" = some r)
    (h1 : valueEqStr (dgetD config "type" (Value.vstr "newest")) "newest" = false)
    (h2 : valueEqStr (dgetD config "type" (Value.vstr "newest")) "best_selling" = false)
    (h3 : valueEqStr (dgetD config "type" (Value.vstr "newest")) "random" = false) :
    ∃ d, productHighlight_get_context_data env config context = Except.ok (d, []) ∧
      dget? d "products" = some (Value.vlist []) := by
  refine ⟨[("request", r),
    ("title", get_translated_value config "title" (Value.vstr "")),
    ("products", Value.vlist [])], ?_, rfl⟩
  unfold productHighlight_get_context_data
  rw [hreq, productHighlight_branch_unknown env config context h1 h2 h3]

/-- C3 witness: a concrete configuration with the unknown type code
`upcoming` yields an empty product list. -/
theorem highlight_unknown_type_empty_products_witness :
    ∃ d, productHighlight_get_context_data envDeletedCategory
        [("type", Value.vstr "upcoming")] ctxRequestOnly = Except.ok (d, []) ∧
      dget? d "products" = some (Value.vlist []) :=
  highlight_unknown_type_empty_products envDeletedCategory
    [("type", Value.vstr "upcoming")] ctxRequestOnly (Value.vstr "request")
    rfl rfl rfl rfl

/-- C6: for every configuration whose stored category identifier matches
no existing category (a missing or `None` identifier included),
`ProductsFromCategoryPlugin.get_context_data` returns a context whose
`products` entry is the empty list rather than raising an error. -/
theorem category_plugin_nonexistent_category_empty
    (env : Env) (config context : Dict) (r : Value)
    (hreq : dget? context "request" = some r)
    (hnomatch : env.categories.filter
      (fun c => valueEqInt (dgetD config "category" Value.vnone) c.id) = []) :
    ∃ d, productsFromCategory_get_context_data env config context =
        Except.ok (d, []) ∧
      dget? d "products" = some (Value.vlist []) := by
  refine ⟨[("request", r),
    ("title", get_translated_value config "title" (Value.vstr "")),
    ("products", Value.vlist [])], ?_, rfl⟩
  unfold productsFromCategory_get_context_data
  rw [hreq, productsFromCategory_branch_nomatch env config context hnomatch]

/-- C6 witness: a stored identifier matching no category in the concrete
environment yields an empty product list. -/
theorem category_plugin_nonexistent_category_empty_witness :
    ∃ d, productsFromCategory_get_context_data envDeletedCategory
        [("category", Value.vint 2)] ctxRequestOnly = Except.ok (d, []) ∧
      dget? d "products" = some (Value.vlist []) :=
  category_plugin_nonexistent_category_empty envDeletedCategory
    [("category", Value.vint 2)] ctxRequestOnly (Value.vstr "request") rfl rfl

/-- C9: for every rendering context that lacks a `product` variable,
`ProductCrossSellsPlugin.get_context_data` executes without raising and
returns a mapping whose `product` entry is `None`. -/
theorem cross_sells_without_product_degrades
    (config context : Dict) (r : Value)
    (hreq : dget? context "request" = some r)
    (hnoprod : dget? context "product" = none) :
    ∃ d, productCrossSells_get_context_data config context = Except.ok d ∧
      dget? d "product" = some Value.vnone := by
  refine ⟨[("request", r),
    ("title", get_translated_value config "title" (Value.vstr "")),
    ("product", Value.vnone),
    ("type", Value.venum ((map_relation_type (dgetD config "type" Value.vnone)).getD
       ProductCrossSellType.RELATED)),
    ("count", dgetD config "count" (Value.vint 4)),
    ("orderable_only", dgetD config "orderable_only" (Value.vbool true))], ?_, rfl⟩
  unfold productCrossSells_get_context_data
  rw [hreq]
  simp [dgetD, hnoprod]

/-- C9 witness: a concrete context holding only the `request` variable
still produces an output mapping with `product` equal to `None`. -/
theorem cross_sells_without_product_degrades_witness :
    ∃ d, productCrossSells_get_context_data [] ctxRequestOnly = Except.ok d ∧
      dget? d "product" = some Value.vnone :=
  cross_sells_without_product_degrades [] ctxRequestOnly (Value.vstr "request")
    rfl rfl

/-- C4: for every configuration and rendering context (with the `request`
variable present), `ProductCrossSellsPlugin.get_context_data` returns a
mapping with exactly the keys `request`, `title`, `product`, `type`,
`count`, `orderable_only`, and contains no resolved product list. -/
theorem cross_sells_returns_parameter_mapping
    (config context : Dict) (r : Value)
    (hreq : dget? context "request" = some r) :
    ∃ d, productCrossSells_get_context_data config context = Except.ok d ∧
      dkeys d = ["request", "title", "product", "type", "count",
        "orderable_only"] ∧
      dget? d "products" = none := by
  refine ⟨[("request", r),
    ("title", get_translated_value config "title" (Value.vstr "")),
    ("product", dgetD context "product" Value.vnone),
    ("type", Value.venum ((map_relation_type (dgetD config "type" Value.vnone)).getD
       ProductCrossSellType.RELATED)),
    ("count", dgetD config "count" (Value.vint 4)),
    ("orderable_only", dgetD config "orderable_only" (Value.vbool true))],
    ?_, rfl, rfl⟩
  unfold productCrossSells_get_context_data
  rw [hreq]

/-- C4 witness: the concrete output mapping carries exactly the six
parameter keys and no `products` key. -/
theorem cross_sells_returns_parameter_mapping_witness :
    ∃ d, productCrossSells_get_context_data [] ctxRequestOnly = Except.ok d ∧
      dkeys d = ["request", "title", "product", "type", "count",
        "orderable_only"] ∧
      dget? d "products" = none :=
  cross_sells_returns_parameter_mapping [] ctxRequestOnly (Value.vstr "request")
    rfl

/-- C1 counterexample: the environment holds a single category that
matches the stored identifier but is deleted. The lookup the spec
describes (skipping deleted categories, scoped to the active shop) finds
nothing, so under the claim the plugin would return an empty product
list — yet the code's render-time lookup matches on the identifier alone,
finds the deleted category and returns the helper's product list. -/
theorem category_plugin_deleted_category_counterexample :
    specCategoryLookup envDeletedCategory
      (dgetD configCategoryOne "category" Value.vnone) = none ∧
    productsFromCategory_get_context_data envDeletedCategory configCategoryOne
        ctxRequestOnly =
      Except.ok ([("request", Value.vstr "request"), ("title", Value.vstr ""),
        ("products", Value.vlist [Value.vint 99])],
        [HelperCall.categoriesCall ctxRequestOnly
          [{ id := 1, deleted := true, shop := 1 }]
          (Value.vint 4) (Value.vbool true) (Value.vbool false)]) ∧
    Value.vlist [Value.vint 99] ≠ Value.vlist [] := by
  refine ⟨rfl, rfl, ?_⟩
  intro h
  simp at h

/-- C1 (amended): `ProductsFromCategoryPlugin.get_context_data` loads the
category by the stored identifier alone — with no deletion or shop
filtering; if such a category is found it delegates to the external
category-products helper with the count/orderable/sale filters, otherwise
it returns an empty product list. -/
theorem category_plugin_lookup_by_id_only
    (env : Env) (config context : Dict) (r : Value)
    (hreq : dget? context "request" = some r) :
    (∃ c, categoryLookup env (dgetD config "category" Value.vnone) = some c ∧
       productsFromCategory_get_context_data env config context =
         Except.ok ([("request", r),
           ("title", get_translated_value config "title" (Value.vstr "")),
           ("products", env.get_products_for_categories context [c]
              (dgetD config "count" Value.vnone)
              (dgetD config "orderable_only" (Value.vbool true))
              (dgetD config "sale_items_only" (Value.vbool false)))],
           [HelperCall.categoriesCall context [c]
              (dgetD config "count" Value.vnone)
              (dgetD config "orderable_only" (Value.vbool true))
              (dgetD config "sale_items_only" (Value.vbool false))])) ∨
    (categoryLookup env (dgetD config "category" Value.vnone) = none ∧
       productsFromCategory_get_context_data env config context =
         Except.ok ([("request", r),
           ("title", get_translated_value config "title" (Value.vstr "")),
           ("products", Value.vlist [])], [])) := by
  cases hc : categoryLookup env (dgetD config "category" Value.vnone) with
  | some c =>
      left
      refine ⟨c, rfl, ?_⟩
      unfold productsFromCategory_get_context_data
      rw [hreq, productsFromCategory_branch_found env config context c hc]
  | none =>
      right
      refine ⟨rfl, ?_⟩
      unfold productsFromCategory_get_context_data
      rw [hreq, productsFromCategory_branch_notfound env config context hc]

/-- C1 witness: at the concrete deleted-category environment the lookup
by identifier succeeds and the helper's products are returned. -/
theorem category_plugin_lookup_by_id_only_witness :
    (∃ c, categoryLookup envDeletedCategory
        (dgetD configCategoryOne "category" Value.vnone) = some c ∧
       productsFromCategory_get_context_data envDeletedCategory
           configCategoryOne ctxRequestOnly =
         Except.ok ([("request", Value.vstr "request"),
           ("title", get_translated_value configCategoryOne "title"
             (Value.vstr "")),
           ("products", envDeletedCategory.get_products_for_categories
              ctxRequestOnly [c]
              (dgetD configCategoryOne "count" Value.vnone)
              (dgetD configCategoryOne "orderable_only" (Value.vbool true))
              (dgetD configCategoryOne "sale_items_only" (Value.vbool false)))],
           [HelperCall.categoriesCall ctxRequestOnly [c]
              (dgetD configCategoryOne "count" Value.vnone)
              (dgetD configCategoryOne "orderable_only" (Value.vbool true))
              (dgetD configCategoryOne "sale_items_only" (Value.vbool false))])) ∨
    (categoryLookup envDeletedCategory
        (dgetD configCategoryOne "category" Value.vnone) = none ∧
       productsFromCategory_get_context_data envDeletedCategory
           configCategoryOne ctxRequestOnly =
         Except.ok ([("request", Value.vstr "request"),
           ("title", get_translated_value configCategoryOne "title"
             (Value.vstr "")),
           ("products", Value.vlist [])], [])) :=
  category_plugin_lookup_by_id_only envDeletedCategory configCategoryOne
    ctxRequestOnly (Value.vstr "request") rfl

/-- C2 counterexample: the empty string is a stored relation-type value on
which the mapping function raises a lookup failure, yet — being falsy —
`ProductCrossSellsPlugin.__init__` leaves it untouched instead of
resolving it to the default `RELATED` type. -/
theorem cross_sells_init_empty_string_counterexample :
    map_relation_type (Value.vstr "") = none ∧
    dget? (productCrossSells_init [("type", Value.vstr "")]) "type" =
      some (Value.vstr "") ∧
    some (Value.vstr "") ≠ some (Value.venum ProductCrossSellType.RELATED) := by
  refine ⟨rfl, rfl, ?_⟩
  intro h
  simp at h

/-- C2 (amended): for every relation-type string on which the external
mapping function raises a lookup failure, the failure is replaced by the
default `RELATED` type rather than propagated: at construction whenever
the stored string is truthy (non-empty), and in `get_context_data` for
every such stored string. -/
theorem cross_sells_unknown_relation_type_defaults_related
    (s : String) (config context : Dict) (r : Value)
    (hmap : map_relation_type (Value.vstr s) = none) :
    (s ≠ "" → ∀ cfg : Dict, dget? cfg "type" = some (Value.vstr s) →
       dget? (productCrossSells_init cfg) "type" =
         some (Value.venum ProductCrossSellType.RELATED)) ∧
    (dget? context "request" = some r →
     dgetD config "type" Value.vnone = Value.vstr s →
       ∃ d, productCrossSells_get_context_data config context = Except.ok d ∧
         dget? d "type" = some (Value.venum ProductCrossSellType.RELATED)) := by
  constructor
  · intro hs cfg hcfg
    have ht : dgetD cfg "type" Value.vnone = Value.vstr s := by
      simp [dgetD, hcfg]
    simp only [productCrossSells_init]
    rw [ht]
    simp [Value.truthy, hs, hmap, dget?_dset_self]
  · intro hreq htype
    refine ⟨[("request", r),
      ("title", get_translated_value config "title" (Value.vstr "")),
      ("product", dgetD context "product" Value.vnone),
      ("type", Value.venum ProductCrossSellType.RELATED),
      ("count", dgetD config "count" (Value.vint 4)),
      ("orderable_only", dgetD config "orderable_only" (Value.vbool true))],
      ?_, rfl⟩
    unfold productCrossSells_get_context_data
    rw [hreq, htype]
    simp [hmap]

/-- C2 witness: the unknown relation-type string `nonsense` is resolved to
`RELATED` both by the constructor and by `get_context_data`. -/
theorem cross_sells_unknown_relation_type_defaults_related_witness :
    dget? (productCrossSells_init [("type", Value.vstr "nonsense")]) "type" =
      some (Value.venum ProductCrossSellType.RELATED) ∧
    ∃ d, productCrossSells_get_context_data [("type", Value.vstr "nonsense")]
        ctxRequestOnly = Except.ok d ∧
      dget? d "type" = some (Value.venum ProductCrossSellType.RELATED) :=
  ⟨(cross_sells_unknown_relation_type_defaults_related "nonsense"
      [("type", Value.vstr "nonsense")] ctxRequestOnly (Value.vstr "request")
      rfl).1 (by decide) [("type", Value.vstr "nonsense")] rfl,
   (cross_sells_unknown_relation_type_defaults_related "nonsense"
      [("type", Value.vstr "nonsense")] ctxRequestOnly (Value.vstr "request")
      rfl).2 rfl rfl⟩

/-- C5: the count value read from the configuration (or its default) is
passed unchanged as the count argument of every external product-query
helper the highlight and category plugins invoke; the cross-sells plugin
invokes no product-query helper and forwards the count unchanged in its
returned parameter mapping. -/
theorem count_passed_through_unchanged (env : Env) (config context : Dict) :
    (∀ d calls, productHighlight_get_context_data env config context =
        Except.ok (d, calls) →
      ∀ call ∈ calls, call.countArg = dgetD config "count" (Value.vint 4)) ∧
    (∀ d calls, productsFromCategory_get_context_data env config context =
        Except.ok (d, calls) →
      ∀ call ∈ calls, call.countArg = dgetD config "count" Value.vnone) ∧
    (∀ d, productCrossSells_get_context_data config context = Except.ok d →
      dget? d "count" = some (dgetD config "count" (Value.vint 4))) := by
  refine ⟨?_, ?_, ?_⟩
  · intro d calls h call hmem
    unfold productHighlight_get_context_data at h
    split at h
    · simp at h
    · rw [Except.ok.injEq, Prod.mk.injEq] at h
      obtain ⟨-, h2⟩ := h
      rw [← h2] at hmem
      exact productHighlight_branch_count env config context call hmem
  · intro d calls h call hmem
    unfold productsFromCategory_get_context_data at h
    split at h
    · simp at h
    · rw [Except.ok.injEq, Prod.mk.injEq] at h
      obtain ⟨-, h2⟩ := h
      rw [← h2] at hmem
      exact productsFromCategory_branch_count env config context call hmem
  · intro d h
    simp only [productCrossSells_get_context_data] at h
    split at h
    · simp at h
    · rw [Except.ok.injEq] at h
      rw [← h]
      rfl

/-- C5 witness: with a stored count of 7 the newest-products helper is
invoked with count 7, the count value read from that configuration. -/
theorem count_passed_through_unchanged_witness :
    (HelperCall.newestCall ctxRequestOnly (Value.vint 7) (Value.vbool true)
        (Value.vbool false)).countArg =
      dgetD [("count", Value.vint 7), ("type", Value.vstr "newest")] "count"
        (Value.vint 4) :=
  (count_passed_through_unchanged envDeletedCategory
      [("count", Value.vint 7), ("type", Value.vstr "newest")] ctxRequestOnly).1
    [("request", Value.vstr "request"), ("title", Value.vstr ""),
     ("products", Value.vlist [])]
    [HelperCall.newestCall ctxRequestOnly (Value.vint 7) (Value.vbool true)
      (Value.vbool false)]
    rfl
    (HelperCall.newestCall ctxRequestOnly (Value.vint 7) (Value.vbool true)
      (Value.vbool false))
    (List.mem_singleton.mpr rfl)

/-- C7: on validation of the category-products configuration form, the
cleaned `category` value is the selected category object's primary-key
identifier; if the selected value has no primary key (no category object
was selected), the stored value is `None`. -/
theorem category_form_clean_stores_pk (cleaned_data : Dict) :
    (∀ pk : Int, dgetD cleaned_data "category" Value.vnone = Value.vobj pk →
       dget? (productsFromCategoryForm_clean cleaned_data) "category" =
         some (Value.vint pk)) ∧
    ((dgetD cleaned_data "category" Value.vnone).hasPk = false →
       dget? (productsFromCategoryForm_clean cleaned_data) "category" =
         some Value.vnone) := by
  constructor
  · intro pk hpk
    simp only [productsFromCategoryForm_clean]
    rw [hpk, dget?_dset_self]
  · intro hnopk
    simp only [productsFromCategoryForm_clean]
    rw [dget?_dset_self]
    cases hv : dgetD cleaned_data "category" Value.vnone with
    | vobj pk => rw [hv] at hnopk; simp [Value.hasPk] at hnopk
    | vnone => rfl
    | vbool b => rfl
    | vint n => rfl
    | vstr s => rfl
    | venum t => rfl
    | vlist l => rfl

/-- C7 witness: a selected category object with primary key 5 is stored as
the identifier 5; an absent selection is stored as `None`. -/
theorem category_form_clean_stores_pk_witness :
    dget? (productsFromCategoryForm_clean [("category", Value.vobj 5)])
      "category" = some (Value.vint 5) ∧
    dget? (productsFromCategoryForm_clean []) "category" = some Value.vnone :=
  ⟨(category_form_clean_stores_pk [("category", Value.vobj 5)]).1 5 rfl,
   (category_form_clean_stores_pk []).2 rfl⟩

/-- C8: every configuration accepted by a plugin's configuration form
stores an integer count of at least 1 — each of the three plugins declares
its `count` field with `min_value=1`. -/
theorem accepted_config_count_at_least_one (data : Dict)
    (h : formAccepts productHighlight_fields data = true ∨
         formAccepts productCrossSells_fields data = true ∨
         formAccepts productsFromCategory_fields data = true) :
    ∃ n : Int, dget? data "count" = some (Value.vint n) ∧ 1 ≤ n := by
  have hcount : fieldAccepts (FieldSpec.integerF (some 1) 4)
      (dget? data "count") = true := by
    rcases h with h | h | h <;>
      simp [formAccepts, productHighlight_fields, productCrossSells_fields,
        productsFromCategory_fields] at h <;>
      tauto
  cases hv : dget? data "count" with
  | none => rw [hv] at hcount; simp [fieldAccepts] at hcount
  | some v =>
      rw [hv] at hcount
      cases v with
      | vint n =>
          refine ⟨n, rfl, ?_⟩
          simpa [fieldAccepts] using hcount
      | vnone => simp [fieldAccepts] at hcount
      | vbool b => simp [fieldAccepts] at hcount
      | vstr s => simp [fieldAccepts] at hcount
      | venum t => simp [fieldAccepts] at hcount
      | vlist l => simp [fieldAccepts] at hcount
      | vobj pk => simp [fieldAccepts] at hcount

/-- C8 witness: a concrete configuration accepted by the highlight
plugin's form stores a count of at least 1. -/
theorem accepted_config_count_at_least_one_witness :
    ∃ n : Int,
      dget? [("title", Value.vstr ""), ("type", Value.vstr "newest"),
        ("count", Value.vint 4), ("sale_items_only", Value.vbool false),
        ("orderable_only", Value.vbool true)] "count" =
        some (Value.vint n) ∧ 1 ≤ n :=
  accepted_config_count_at_least_one
    [("title", Value.vstr ""), ("type", Value.vstr "newest"),
     ("count", Value.vint 4), ("sale_items_only", Value.vbool false),
     ("orderable_only", Value.vbool true)]
    (Or.inl rfl)

/-- C10: `ProductCrossSellsPlugin.__init__` mutates the configuration
mapping it is given: a truthy `type` entry is replaced in place by the
mapped relation-type enum (the `RELATED` default on lookup failure)
before the base constructor stores the mapping, every other key is left
untouched, and a falsy or absent `type` leaves the whole mapping
untouched. -/
theorem cross_sells_init_rewrites_type_in_place (config : Dict) :
    (∀ k, k ≠ "type" →
       dget? (productCrossSells_init config) k = dget? config k) ∧
    ((dgetD config "type" Value.vnone).truthy = true →
       dget? (productCrossSells_init config) "type" =
         some (Value.venum
           ((map_relation_type (dgetD config "type" Value.vnone)).getD
             ProductCrossSellType.RELATED))) ∧
    ((dgetD config "type" Value.vnone).truthy = false →
       productCrossSells_init config = config) := by
  refine ⟨?_, ?_, ?_⟩
  · intro k hk
    simp only [productCrossSells_init]
    by_cases ht : (dgetD config "type" Value.vnone).truthy = true
    · rw [if_pos ht]
      exact dget?_dset_ne config "type" k _ hk
    · rw [if_neg ht]
  · intro ht
    simp only [productCrossSells_init]
    rw [if_pos ht, dget?_dset_self]
  · intro ht
    simp [productCrossSells_init, ht]

/-- C10 witness: a truthy unknown `type` entry is replaced in place by the
`RELATED` enum while the `count` entry is untouched, and a configuration
without a `type` entry is returned unchanged. -/
theorem cross_sells_init_rewrites_type_in_place_witness :
    dget? (productCrossSells_init
      [("type", Value.vstr "bogus"), ("count", Value.vint 3)]) "count" =
      some (Value.vint 3) ∧
    dget? (productCrossSells_init
      [("type", Value.vstr "bogus"), ("count", Value.vint 3)]) "type" =
      some (Value.venum ProductCrossSellType.RELATED) ∧
    productCrossSells_init [("count", Value.vint 3)] =
      [("count", Value.vint 3)] :=
  ⟨(cross_sells_init_rewrites_type_in_place
      [("type", Value.vstr "bogus"), ("count", Value.vint 3)]).1 "count"
      (by decide),
   (cross_sells_init_rewrites_type_in_place
      [("type", Value.vstr "bogus"), ("count", Value.vint 3)]).2.1 rfl,
   (cross_sells_init_rewrites_type_in_place [("count", Value.vint 3)]).2.2 rfl⟩

end Shuup
